import Mathlib

/-!
Shallow embedding of the NEXUS wallet-gating state machine and the links API
route, translated from the repository source:

* the wallet store's `checkTokenBalance`, event handlers and persistence
  configuration (README.md, "Implementation Best Practices", lines 187-306);
* the page-level disconnect handler (src/app/page.tsx, lines 27-33);
* the links API `POST` handler (src/app/api/links/route.ts, lines 60-104).

Token balances are modelled in the token's smallest unit (wei-like `Nat`);
the source stores `formatBalance(balance)`, an injective decimal rendering of
that same raw value, so nothing in the claims depends on the string form.
Timestamps are milliseconds since epoch (`Nat`), matching `Date.now()`.
-/

/-- ethers.utils.parseEther "0.1": 0.1 ether in wei, a fixed constant that
assumes 18 decimals. -/
def parseEtherPointOne : Nat := 10 ^ 17

/-- The per-token access comparison `balance.gte(ethers.utils.parseEther("0.1"))`
from README lines 236 and 247. -/
def meetsThreshold (balance : Nat) : Bool :=
  decide (parseEtherPointOne ≤ balance)

/-- Modelled from the spec ("compare against 0.1 × 10^decimals, not a fixed
integer", with decimals read per token): a balance meets the threshold when
`balance ≥ 0.1 × 10^decimals`, i.e. `10 * balance ≥ 10^decimals`. -/
def meetsThresholdSpec (decimals balance : Nat) : Bool :=
  decide (10 ^ decimals ≤ 10 * balance)

/-- The wallet store state (`useWalletStore`): address, connection flag, the
two token balances (raw units), the derived access flag `hasTokens`, and the
`lastChecked` throttling timestamp. -/
structure WalletState where
  address : Option String
  isConnected : Bool
  zaoBalance : Nat
  loanzBalance : Nat
  hasTokens : Bool
  lastChecked : Nat
deriving Repr, DecidableEq

/-- Initial store state: nothing connected, balances zero, never checked. -/
def initialWalletState : WalletState :=
  { address := none, isConnected := false, zaoBalance := 0, loanzBalance := 0,
    hasTokens := false, lastChecked := 0 }

/-- Outcome of one `balanceOf` RPC call: the raw balance, or a thrown
network/contract error. -/
inductive QueryOutcome where
  | ok (balance : Nat)
  | err
deriving Repr, DecidableEq

/-- Value produced by each per-token async closure (README lines 233-252):
the formatted balance together with the `hasToken` comparison result. -/
structure TokenResult where
  balance : Nat
  hasToken : Bool
deriving Repr, DecidableEq

/-- One per-token closure: on success it returns the balance and the
`gte(parseEther "0.1")` flag; the `catch` branch returns balance `'0'` and
`hasToken: false` (README lines 237-240 and 248-251), so the closure's
promise always fulfills. -/
def checkSingleToken : QueryOutcome → TokenResult
  | QueryOutcome.ok b => { balance := b, hasToken := meetsThreshold b }
  | QueryOutcome.err => { balance := 0, hasToken := false }

/-- A settled promise as seen by `Promise.allSettled`. -/
inductive Settled (α : Type) where
  | fulfilled (value : α)
  | rejected
deriving Repr, DecidableEq

/-- The state update after `Promise.allSettled` (README lines 256-259): each
fulfilled result writes its token's balance, and `hasTokens` is the OR of the
two fulfilled `hasToken` flags (a rejected slot contributes `false`). -/
def applyResults (s : WalletState) (r0 r1 : Settled TokenResult) : WalletState :=
  let s1 := match r0 with
    | Settled.fulfilled v => { s with zaoBalance := v.balance }
    | Settled.rejected => s
  let s2 := match r1 with
    | Settled.fulfilled v => { s1 with loanzBalance := v.balance }
    | Settled.rejected => s1
  { s2 with hasTokens :=
      (match r0 with | Settled.fulfilled v => v.hasToken | Settled.rejected => false) ||
      (match r1 with | Settled.fulfilled v => v.hasToken | Settled.rejected => false) }

/-- The synchronous prefix of `checkTokenBalance` (README lines 220-226): the
address guard, the 10-second cooldown guard, and the `set({ lastChecked })`
write — all executed before any asynchronous work is dispatched. Returns
whether the check proceeds to its queries, and the state after the prefix. -/
def checkStart (s : WalletState) (now : Nat) : Bool × WalletState :=
  match s.address with
  | none => (false, s)
  | some _ =>
    if now - s.lastChecked < 10000 then (false, s)
    else (true, { s with lastChecked := now })

/-- The asynchronous remainder of `checkTokenBalance` (README lines 228-259):
both per-token closures run and, since each catches its own errors, both
promises fulfill; the settled results are then applied. -/
def checkComplete (s : WalletState) (zao loanz : QueryOutcome) : WalletState :=
  applyResults s
    (Settled.fulfilled (checkSingleToken zao))
    (Settled.fulfilled (checkSingleToken loanz))

/-- A full `checkTokenBalance` invocation at time `now`, with the two query
outcomes supplied by the environment. Returns whether a query round-trip was
actually performed, and the resulting state. -/
def checkTokenBalance (s : WalletState) (now : Nat) (zao loanz : QueryOutcome) :
    Bool × WalletState :=
  match checkStart s now with
  | (false, s1) => (false, s1)
  | (true, s1) => (true, checkComplete s1 zao loanz)

/-- Disconnect, from `handleWalletDisconnected` (src/app/page.tsx lines
27-33): clears the address, resets both balances to zero and the access flag
to false; the store's connection flag is cleared alongside (spec §4.1, the
store body itself is elided in the README). -/
def disconnect (s : WalletState) : WalletState :=
  { s with
    address := none, isConnected := false, zaoBalance := 0,
    loanzBalance := 0, hasTokens := false }

/-- The `accountsChanged` listener (README lines 268-277): an empty account
list behaves as `disconnect()`; otherwise the address is set to the first
entry and `checkTokenBalance()` is awaited. -/
def handleAccountsChanged (s : WalletState) (accounts : List String) (now : Nat)
    (zao loanz : QueryOutcome) : Bool × WalletState :=
  match accounts with
  | [] => (false, disconnect s)
  | a :: _ => checkTokenBalance { s with address := some a } now zao loanz

/-- The `chainChanged` listener (README lines 279-282): awaits
`checkTokenBalance()`. -/
def handleChainChanged (s : WalletState) (now : Nat) (zao loanz : QueryOutcome) :
    Bool × WalletState :=
  checkTokenBalance s now zao loanz

/-- The persisted projection of the store, as selected by the persist
middleware (README lines 296-302): address, isConnected, both balances and
hasTokens — and nothing else. -/
structure PersistedWalletState where
  address : Option String
  isConnected : Bool
  zaoBalance : Nat
  loanzBalance : Nat
  hasTokens : Bool
deriving Repr, DecidableEq

/-- The persist middleware's state selector (README lines 296-302). -/
def toPersisted (s : WalletState) : PersistedWalletState :=
  { address := s.address, isConnected := s.isConnected,
    zaoBalance := s.zaoBalance, loanzBalance := s.loanzBalance,
    hasTokens := s.hasTokens }

/-- Rehydration on page load: the persisted fields are restored and every
non-persisted field keeps its initial value. -/
def rehydrate (p : PersistedWalletState) : WalletState :=
  { initialWalletState with
    address := p.address, isConnected := p.isConnected,
    zaoBalance := p.zaoBalance, loanzBalance := p.loanzBalance,
    hasTokens := p.hasTokens }

/-- The externally triggered events that mutate the wallet store: connection
(sets the address, page.tsx lines 21-24), disconnection, a manual or timed
`checkTokenBalance` call, and the two provider events. -/
inductive WalletEvent where
  | connected (a : String)
  | disconnected
  | check (now : Nat) (zao loanz : QueryOutcome)
  | accounts (accts : List String) (now : Nat) (zao loanz : QueryOutcome)
  | chain (now : Nat) (zao loanz : QueryOutcome)
deriving Repr

/-- One store transition per event. -/
def step (s : WalletState) : WalletEvent → WalletState
  | WalletEvent.connected a => { s with address := some a, isConnected := true }
  | WalletEvent.disconnected => disconnect s
  | WalletEvent.check now z l => (checkTokenBalance s now z l).2
  | WalletEvent.accounts accts now z l => (handleAccountsChanged s accts now z l).2
  | WalletEvent.chain now z l => (handleChainChanged s now z l).2

/-- The access flag equals the OR of the two per-token threshold comparisons
on the stored balances. -/
def accessInvariant (s : WalletState) : Prop :=
  s.hasTokens = (meetsThreshold s.zaoBalance || meetsThreshold s.loanzBalance)

/-!
Links API `POST` handler (src/app/api/links/route.ts, lines 60-104). The
stored links file is modelled as a list of link records; payload fields other
than the ones the handler inspects (`id`, `title`, `url`) and the timestamps
it writes are elided. An input field is `none` when the key is absent from
the JSON body; JS truthiness on a string is falsity exactly for the empty
string.
-/

/-- A link record as stored in the links JSON file. -/
structure StoredLink where
  id : String
  title : String
  url : String
  createdAt : Option String
  updatedAt : Option String
deriving Repr, DecidableEq

/-- The `link` object of a POST body; a `none` field is an absent key. -/
structure LinkInput where
  id : Option String
  title : Option String
  url : Option String
deriving Repr, DecidableEq

/-- JS truthiness of an optional string: absent, null and `""` are falsy. -/
def truthy : Option String → Bool
  | none => false
  | some s => s != ""

/-- The merge `{ ...existing, ...link, updatedAt: now }` performed when a
link with the same id already exists (route.ts lines 80-84): present payload
keys overwrite the stored record, `createdAt` is kept, `updatedAt` is set. -/
def mergeLink (existing : StoredLink) (link : LinkInput) (now : String) : StoredLink :=
  { id := link.id.getD existing.id
    title := link.title.getD existing.title
    url := link.url.getD existing.url
    createdAt := existing.createdAt
    updatedAt := some now }

/-- The append `{ ...link, createdAt: now }` performed for a fresh id
(route.ts lines 87-90). -/
def newStoredLink (link : LinkInput) (now : String) : StoredLink :=
  { id := link.id.getD ""
    title := link.title.getD ""
    url := link.url.getD ""
    createdAt := some now
    updatedAt := none }

/-- HTTP outcome of the POST handler: 200 with success, 400 invalid, 500. -/
inductive ApiResponse where
  | ok
  | invalid
  | serverError
deriving Repr, DecidableEq

/-- The `POST` handler (route.ts lines 60-104): validates the body (missing
`link` or a falsy `id`/`title`/`url` is a 400 that performs no write), then
either updates the first stored link with the same id in place or appends a
new record, and writes the file. Returns the response and the stored list
after the request. -/
def POST (stored : List StoredLink) (body : Option LinkInput) (now : String) :
    ApiResponse × List StoredLink :=
  match body with
  | none => (ApiResponse.invalid, stored)
  | some link =>
    if !truthy link.id || !truthy link.title || !truthy link.url then
      (ApiResponse.invalid, stored)
    else
      match List.findIdx? (fun l2 => l2.id == link.id.getD "") stored with
      | some i =>
        (ApiResponse.ok,
         stored.set i (mergeLink
           (stored.getD i { id := "", title := "", url := "", createdAt := none,
                            updatedAt := none })
           link now))
      | none => (ApiResponse.ok, stored ++ [newStoredLink link now])

/-!
Concrete sample states used by the counterexamples and witnesses below.
-/

/-- A connected session holding 0.5 ZAO, used for the partial-failure cycle. -/
def preC1 : WalletState :=
  { address := some "0xabc", isConnected := true, zaoBalance := 5 * 10 ^ 17,
    loanzBalance := 0, hasTokens := true, lastChecked := 0 }

/-- A connected session whose last check ran at t = 20000 ms. -/
def sC3 : WalletState :=
  { address := some "0xabc", isConnected := true, zaoBalance := 0,
    loanzBalance := 0, hasTokens := false, lastChecked := 0 }

/-- A connected session whose last check ran at t = 5000 ms. -/
def preC5 : WalletState :=
  { address := some "0xabc", isConnected := true, zaoBalance := 0,
    loanzBalance := 0, hasTokens := false, lastChecked := 5000 }

/-- A connected session with recognisable balances and lastChecked = 123. -/
def preC6 : WalletState :=
  { address := some "0xabc", isConnected := true, zaoBalance := 7,
    loanzBalance := 8, hasTokens := false, lastChecked := 123 }

/-- A connected session with a stale lastChecked, for the persistence claim. -/
def sC9 : WalletState :=
  { address := some "0xabc", isConnected := true, zaoBalance := 1,
    loanzBalance := 2, hasTokens := false, lastChecked := 999 }

/-- A two-entry stored links file. -/
def storedC10 : List StoredLink :=
  [{ id := "a", title := "T", url := "U", createdAt := some "t0", updatedAt := none },
   { id := "b", title := "T2", url := "U2", createdAt := none, updatedAt := none }]

/-- A valid POST payload whose id collides with the second stored entry. -/
def linkC10 : LinkInput :=
  { id := some "b", title := some "NT", url := some "NU" }

/-- A POST payload with a missing title, hence invalid. -/
def badC10 : LinkInput :=
  { id := some "x", title := none, url := some "u" }

/-- The stored entry with id "b", the one linkC10 collides with. -/
def eC10 : StoredLink :=
  { id := "b", title := "T2", url := "U2", createdAt := none, updatedAt := none }

/-!
Helper lemmas shared by the claim theorems.
-/

theorem meetsThreshold_zero : meetsThreshold 0 = false := by decide

theorem checkSingleToken_sound (q : QueryOutcome) :
    (checkSingleToken q).hasToken = meetsThreshold (checkSingleToken q).balance := by
  cases q with
  | ok b => rfl
  | err => simp [checkSingleToken, meetsThreshold_zero]

theorem checkComplete_def (s : WalletState) (z l : QueryOutcome) :
    checkComplete s z l =
      { s with zaoBalance := (checkSingleToken z).balance,
               loanzBalance := (checkSingleToken l).balance,
               hasTokens := (checkSingleToken z).hasToken || (checkSingleToken l).hasToken } := rfl

theorem checkComplete_address (s : WalletState) (z l : QueryOutcome) :
    (checkComplete s z l).address = s.address := rfl

theorem checkComplete_lastChecked (s : WalletState) (z l : QueryOutcome) :
    (checkComplete s z l).lastChecked = s.lastChecked := rfl

theorem checkStart_proceed (s : WalletState) (t : Nat)
    (h : (checkStart s t).1 = true) :
    (∃ a, s.address = some a) ∧ 10000 ≤ t - s.lastChecked ∧
      checkStart s t = (true, { s with lastChecked := t }) := by
  unfold checkStart at h ⊢
  cases hadr : s.address with
  | none => rw [hadr] at h; simp at h
  | some a =>
    rw [hadr] at h
    by_cases hc : t - s.lastChecked < 10000
    · simp [hc] at h
    · exact ⟨⟨a, rfl⟩, by omega, by simp [hc]⟩

theorem checkTokenBalance_noop (s : WalletState) (now : Nat) (z l : QueryOutcome)
    (a : String) (ha : s.address = some a) (hc : now - s.lastChecked < 10000) :
    checkTokenBalance s now z l = (false, s) := by
  have hcs : checkStart s now = (false, s) := by
    unfold checkStart
    rw [ha]
    simp [hc]
  unfold checkTokenBalance
  rw [hcs]

theorem accessInvariant_checkComplete (s : WalletState) (z l : QueryOutcome) :
    accessInvariant (checkComplete s z l) := by
  unfold accessInvariant
  rw [checkComplete_def]
  simp [checkSingleToken_sound]

theorem accessInvariant_checkTokenBalance (s : WalletState) (now : Nat)
    (z l : QueryOutcome) (h : accessInvariant s) :
    accessInvariant (checkTokenBalance s now z l).2 := by
  unfold checkTokenBalance checkStart
  cases hadr : s.address with
  | none => exact h
  | some a =>
    by_cases hc : now - s.lastChecked < 10000
    · simpa [hc] using h
    · simpa [hc] using accessInvariant_checkComplete { s with lastChecked := now } z l

theorem accessInvariant_disconnect (s : WalletState) :
    accessInvariant (disconnect s) := by
  unfold accessInvariant disconnect
  simp [meetsThreshold_zero]

theorem accessInvariant_step (s : WalletState) (e : WalletEvent)
    (h : accessInvariant s) : accessInvariant (step s e) := by
  cases e with
  | connected a => exact h
  | disconnected => exact accessInvariant_disconnect s
  | check now z l => exact accessInvariant_checkTokenBalance s now z l h
  | accounts accts now z l =>
    cases accts with
    | nil => exact accessInvariant_disconnect s
    | cons a rest =>
      exact accessInvariant_checkTokenBalance { s with address := some a } now z l h
  | chain now z l => exact accessInvariant_checkTokenBalance s now z l h

theorem accessInvariant_foldl (events : List WalletEvent) :
    ∀ s : WalletState, accessInvariant s →
      accessInvariant (List.foldl step s events) := by
  induction events with
  | nil => intro s h; exact h
  | cons e rest ih => intro s h; exact ih (step s e) (accessInvariant_step s e h)

/-!
Claim theorems.
-/

/-- C1 (counterexample): starting from a session holding 0.5 ZAO, a cycle in
which the ZAO query throws and the LOANZ query returns 0.3 ends with
zaoBalance overwritten to 0 — not left at its pre-cycle value 0.5 — because
the per-token catch fulfils the promise with balance '0'. The sibling update
and the access recomputation do behave as claimed. -/
theorem failed_query_overwrites_cex :
    (checkTokenBalance preC1 20000 QueryOutcome.err
        (QueryOutcome.ok (3 * 10 ^ 17))).2.zaoBalance = 0 ∧
    preC1.zaoBalance = 5 * 10 ^ 17 ∧
    (checkTokenBalance preC1 20000 QueryOutcome.err
        (QueryOutcome.ok (3 * 10 ^ 17))).2.zaoBalance ≠ preC1.zaoBalance ∧
    (checkTokenBalance preC1 20000 QueryOutcome.err
        (QueryOutcome.ok (3 * 10 ^ 17))).2.loanzBalance = 3 * 10 ^ 17 ∧
    (checkTokenBalance preC1 20000 QueryOutcome.err
        (QueryOutcome.ok (3 * 10 ^ 17))).2.hasTokens = true := by
  refine ⟨rfl, rfl, ?_, rfl, by decide⟩
  decide

/-- C1 (amended): in a cycle that passes the guard and in which exactly one
query fails, the failed token's balance is overwritten with 0 (not left at
its last known value), the sibling token's balance is updated from its
successful query, and hasTokens is recomputed as the successful token's
threshold flag (the failed token contributing false). -/
theorem failed_query_zeroes (s : WalletState) (now b : Nat)
    (h : (checkStart s now).1 = true) :
    ((checkTokenBalance s now QueryOutcome.err (QueryOutcome.ok b)).2.zaoBalance = 0 ∧
     (checkTokenBalance s now QueryOutcome.err (QueryOutcome.ok b)).2.loanzBalance = b ∧
     (checkTokenBalance s now QueryOutcome.err
        (QueryOutcome.ok b)).2.hasTokens = meetsThreshold b) ∧
    ((checkTokenBalance s now (QueryOutcome.ok b) QueryOutcome.err).2.loanzBalance = 0 ∧
     (checkTokenBalance s now (QueryOutcome.ok b) QueryOutcome.err).2.zaoBalance = b ∧
     (checkTokenBalance s now (QueryOutcome.ok b)
        QueryOutcome.err).2.hasTokens = meetsThreshold b) := by
  obtain ⟨⟨a, ha⟩, hc, heq⟩ := checkStart_proceed s now h
  unfold checkTokenBalance
  rw [heq]
  simp [checkComplete_def, checkSingleToken]

/-- C1 witness: the amended theorem applied to the concrete 0.5-ZAO session,
with the ZAO query failing and the LOANZ query returning 42 raw units. -/
theorem failed_query_zeroes_witness :
    (checkTokenBalance preC1 20000 QueryOutcome.err
        (QueryOutcome.ok 42)).2.zaoBalance = 0 ∧
    (checkTokenBalance preC1 20000 QueryOutcome.err
        (QueryOutcome.ok 42)).2.loanzBalance = 42 :=
  ⟨(failed_query_zeroes preC1 20000 42 (by decide)).1.1,
   (failed_query_zeroes preC1 20000 42 (by decide)).1.2.1⟩

/-- C2: in every state reachable from the initial store state by any sequence
of connect, disconnect, balance-check, accountsChanged and chainChanged
events, hasTokens equals the OR of the two per-token threshold comparisons on
the stored balances — it is a pure function of the balances and is never set
independently of them. -/
theorem hasTokens_pure_of_balances (events : List WalletEvent) :
    accessInvariant (List.foldl step initialWalletState events) :=
  accessInvariant_foldl events initialWalletState (by unfold accessInvariant; decide)

/-- C3: if a checkTokenBalance call at time t1 passes the guard, then any
second call within the 10-second window (t2 < t1 + 10000) performs no query
round-trip and returns the prior state unchanged — whether it arrives after
the first call's synchronous prefix (which already wrote lastChecked, before
any asynchronous work) or after the first cycle completed. -/
theorem cooldown_second_call_noop (s : WalletState) (t1 t2 : Nat)
    (z1 l1 z2 l2 : QueryOutcome)
    (h1 : (checkStart s t1).1 = true) (h2 : t2 < t1 + 10000) :
    checkTokenBalance (checkStart s t1).2 t2 z2 l2 = (false, (checkStart s t1).2) ∧
    (checkTokenBalance s t1 z1 l1).1 = true ∧
    checkTokenBalance (checkTokenBalance s t1 z1 l1).2 t2 z2 l2 =
      (false, (checkTokenBalance s t1 z1 l1).2) := by
  obtain ⟨⟨a, ha⟩, hc, heq⟩ := checkStart_proceed s t1 h1
  have hfull : checkTokenBalance s t1 z1 l1 =
      (true, checkComplete { s with lastChecked := t1 } z1 l1) := by
    unfold checkTokenBalance
    rw [heq]
  refine ⟨?_, ?_, ?_⟩
  · rw [heq]
    exact checkTokenBalance_noop _ t2 z2 l2 a ha (by show t2 - t1 < 10000; omega)
  · rw [hfull]
  · rw [hfull]
    exact checkTokenBalance_noop _ t2 z2 l2 a
      (by rw [checkComplete_address]; exact ha)
      (by rw [checkComplete_lastChecked]; show t2 - t1 < 10000; omega)

/-- C3 witness: a first call at t = 20000 on a never-checked connected
session, followed by a second call at t = 25000. -/
theorem cooldown_second_call_noop_witness :
    checkTokenBalance (checkStart sC3 20000).2 25000 QueryOutcome.err
        QueryOutcome.err = (false, (checkStart sC3 20000).2) ∧
    (checkTokenBalance sC3 20000 (QueryOutcome.ok 1) (QueryOutcome.ok 2)).1 = true :=
  ⟨(cooldown_second_call_noop sC3 20000 25000 (QueryOutcome.ok 1)
      (QueryOutcome.ok 2) QueryOutcome.err QueryOutcome.err (by decide) (by decide)).1,
   (cooldown_second_call_noop sC3 20000 25000 (QueryOutcome.ok 1)
      (QueryOutcome.ok 2) QueryOutcome.err QueryOutcome.err (by decide) (by decide)).2.1⟩

/-- C4 (counterexample): the code's comparison is
`balance.gte(parseEther "0.1")`, a fixed 18-decimals constant. For a token
with 6 decimals, a raw balance of 100000 is exactly 0.1 token, so the
per-token-decimals rule accepts it, but the code's comparison rejects it —
the claim that the threshold is computed from contract-read decimals is
false. -/
theorem threshold_ignores_decimals_cex :
    meetsThresholdSpec 6 100000 = true ∧ meetsThreshold 100000 = false := by
  decide

/-- C4 (amended): the meets-threshold comparison is made against the fixed
integer parseEther("0.1") = 10^17, i.e. it coincides with the 0.1 × 10^d
rule only at the hardcoded precision d = 18, for every balance. -/
theorem meetsThreshold_hardcoded18 (b : Nat) :
    meetsThreshold b = meetsThresholdSpec 18 b := by
  unfold meetsThreshold meetsThresholdSpec parseEtherPointOne
  have e : (10 : Nat) ^ 18 = 10 * 10 ^ 17 := by norm_num
  rw [e, decide_eq_decide]
  generalize (10 : Nat) ^ 17 = c
  omega

/-- C5 (counterexample): with the last check at t = 5000, a chainChanged
event and a non-empty accountsChanged event at t = 6000 both perform no
query and leave the state (beyond the address update) unchanged, even though
the ZAO query would have returned an above-threshold balance — the handlers
do not bypass the cooldown guard. -/
theorem handlers_within_cooldown_cex :
    handleChainChanged preC5 6000 (QueryOutcome.ok (3 * 10 ^ 17))
        (QueryOutcome.ok 0) = (false, preC5) ∧
    handleAccountsChanged preC5 ["0xdef"] 6000 (QueryOutcome.ok (3 * 10 ^ 17))
        (QueryOutcome.ok 0) = (false, { preC5 with address := some "0xdef" }) := by
  decide

/-- C5 (amended): the chainChanged handler and the non-empty accountsChanged
handler trigger checkTokenBalance, which remains subject to the 10-second
cooldown guard: a trigger within the window of the last check performs no
query and changes nothing except (for accountsChanged) the address. -/
theorem handlers_respect_cooldown (s : WalletState) (a0 addr : String)
    (rest : List String) (now : Nat) (z l : QueryOutcome)
    (ha : s.address = some a0) (hc : now - s.lastChecked < 10000) :
    handleChainChanged s now z l = (false, s) ∧
    handleAccountsChanged s (addr :: rest) now z l =
      (false, { s with address := some addr }) := by
  constructor
  · exact checkTokenBalance_noop s now z l a0 ha hc
  · exact checkTokenBalance_noop { s with address := some addr } now z l addr rfl
      (by show now - s.lastChecked < 10000; exact hc)

/-- C5 witness: the amended theorem at the concrete session last checked at
t = 5000, with both handler events arriving at t = 6000. -/
theorem handlers_respect_cooldown_witness :
    handleChainChanged preC5 6000 QueryOutcome.err QueryOutcome.err =
      (false, preC5) ∧
    handleAccountsChanged preC5 ["0xdef"] 6000 QueryOutcome.err QueryOutcome.err =
      (false, { preC5 with address := some "0xdef" }) :=
  handlers_respect_cooldown preC5 "0xabc" "0xdef" [] 6000 QueryOutcome.err
    QueryOutcome.err (by decide) (by decide)

/-- C6 (counterexample): the update applied after both queries settle leaves
lastChecked untouched (it stays 123, the pre-cycle value, and only balances
and hasTokens are written); it is the synchronous start of the cycle that
writes lastChecked — so lastChecked is not set after the queries settle as
part of the final update. -/
theorem lastChecked_final_update_cex :
    (checkComplete preC6 (QueryOutcome.ok 5) (QueryOutcome.ok 6)).lastChecked = 123 ∧
    checkComplete preC6 QueryOutcome.err QueryOutcome.err =
      { preC6 with zaoBalance := 0, loanzBalance := 0, hasTokens := false } ∧
    checkStart preC6 20000 = (true, { preC6 with lastChecked := 20000 }) := by
  decide

/-- C6 (amended): in every cycle that passes the guard, lastChecked is set to
the call time synchronously at the start of the cycle, before the queries are
dispatched; the update applied after the queries settle writes only the
balances and hasTokens and leaves lastChecked unchanged. -/
theorem lastChecked_set_at_start (s : WalletState) (now : Nat)
    (z l : QueryOutcome) (h : (checkStart s now).1 = true) :
    (checkStart s now).2.lastChecked = now ∧
    (checkTokenBalance s now z l).2.lastChecked = now ∧
    (checkComplete s z l).lastChecked = s.lastChecked := by
  obtain ⟨_, _, heq⟩ := checkStart_proceed s now h
  refine ⟨by rw [heq], ?_, checkComplete_lastChecked s z l⟩
  unfold checkTokenBalance
  rw [heq]
  show (checkComplete { s with lastChecked := now } z l).lastChecked = now
  rw [checkComplete_lastChecked]

/-- C6 witness: the amended theorem at the concrete session (lastChecked 123)
for a cycle starting at t = 20000. -/
theorem lastChecked_set_at_start_witness :
    (checkStart preC6 20000).2.lastChecked = 20000 ∧
    (checkTokenBalance preC6 20000 (QueryOutcome.ok 5)
        (QueryOutcome.ok 6)).2.lastChecked = 20000 :=
  ⟨(lastChecked_set_at_start preC6 20000 (QueryOutcome.ok 5) (QueryOutcome.ok 6)
      (by decide)).1,
   (lastChecked_set_at_start preC6 20000 (QueryOutcome.ok 5) (QueryOutcome.ok 6)
      (by decide)).2.1⟩

/-- C7: for every prior state, disconnect succeeds and resets the address to
absent, the connection flag and both tracked balances to zero, and hasTokens
to false. -/
theorem disconnect_resets (s : WalletState) :
    (disconnect s).address = none ∧ (disconnect s).isConnected = false ∧
    (disconnect s).zaoBalance = 0 ∧ (disconnect s).loanzBalance = 0 ∧
    (disconnect s).hasTokens = false :=
  ⟨rfl, rfl, rfl, rfl, rfl⟩

/-- C8: for every prior state, the accountsChanged handler on an empty
account list performs no query and produces exactly the state of an explicit
disconnect. -/
theorem accountsChangedEmpty_eq_disconnect (s : WalletState) (now : Nat)
    (z l : QueryOutcome) :
    handleAccountsChanged s [] now z l = (false, disconnect s) :=
  rfl

/-- C9: the persisted projection is exactly the subset address, isConnected,
both balances and hasTokens; rehydrating it reproduces the full state except
that lastChecked is back at its initial value 0, so on a connected rehydrated
session the cooldown guard passes immediately (for any real clock value
now ≥ 10000 ms). -/
theorem persisted_projection (s : WalletState) (now : Nat) (a : String)
    (ha : s.address = some a) (hnow : 10000 ≤ now) :
    toPersisted s = { address := s.address, isConnected := s.isConnected,
                      zaoBalance := s.zaoBalance, loanzBalance := s.loanzBalance,
                      hasTokens := s.hasTokens } ∧
    rehydrate (toPersisted s) = { s with lastChecked := 0 } ∧
    (checkStart (rehydrate (toPersisted s)) now).1 = true := by
  refine ⟨rfl, by cases s; rfl, ?_⟩
  have haddr : (rehydrate (toPersisted s)).address = some a := ha
  unfold checkStart
  rw [haddr]
  have hlc : (rehydrate (toPersisted s)).lastChecked = 0 := rfl
  rw [hlc]
  simp only [Nat.sub_zero]
  rw [if_neg (by omega)]

/-- C9 witness: the projection theorem at a concrete session whose
lastChecked (999) is stale, rehydrated and checked at t = 20000. -/
theorem persisted_projection_witness :
    rehydrate (toPersisted sC9) = { sC9 with lastChecked := 0 } ∧
    (checkStart (rehydrate (toPersisted sC9)) 20000).1 = true :=
  ⟨(persisted_projection sC9 20000 "0xabc" (by decide) (by decide)).2.1,
   (persisted_projection sC9 20000 "0xabc" (by decide) (by decide)).2.2⟩

/-- C10: the links POST handler returns 400 and leaves the stored links
unchanged when the body has no link object or the link has a falsy id, title
or url; and for a valid link whose id is already stored (first occurrence at
index i, holding entry e), it replaces that entry in place with the merged
record carrying updatedAt = now — same length, same entries elsewhere, no
second entry appended. -/
theorem POST_validates_and_updates
    (stored : List StoredLink) (link bad : LinkInput) (now : String)
    (i : Nat) (e : StoredLink)
    (hval : (truthy link.id && truthy link.title && truthy link.url) = true)
    (hbad : (truthy bad.id && truthy bad.title && truthy bad.url) = false)
    (hfind : List.findIdx? (fun l2 => l2.id == link.id.getD "") stored = some i)
    (hget : stored[i]? = some e) :
    POST stored none now = (ApiResponse.invalid, stored) ∧
    POST stored (some bad) now = (ApiResponse.invalid, stored) ∧
    POST stored (some link) now =
      (ApiResponse.ok, stored.set i (mergeLink e link now)) ∧
    (stored.set i (mergeLink e link now)).length = stored.length ∧
    (stored.set i (mergeLink e link now))[i]? = some (mergeLink e link now) ∧
    (mergeLink e link now).updatedAt = some now ∧
    ∀ j, j ≠ i → (stored.set i (mergeLink e link now))[j]? = stored[j]? := by
  have hsplit := hval
  rw [Bool.and_eq_true, Bool.and_eq_true] at hsplit
  obtain ⟨⟨h1, h2⟩, h3⟩ := hsplit
  have hlt : i < stored.length := (List.getElem?_eq_some.mp hget).1
  have hgetD : stored.getD i
      { id := "", title := "", url := "", createdAt := none, updatedAt := none } = e := by
    rw [List.getD_eq_getElem?_getD, hget]
    rfl
  refine ⟨rfl, ?_, ?_, List.length_set stored i _,
    List.getElem?_set_eq_of_lt _ hlt, rfl, ?_⟩
  · have hcond : (!truthy bad.id || !truthy bad.title || !truthy bad.url) = true := by
      cases hb1 : truthy bad.id <;> cases hb2 : truthy bad.title <;>
        cases hb3 : truthy bad.url <;> simp_all
    show (if (!truthy bad.id || !truthy bad.title || !truthy bad.url) = true then
        (ApiResponse.invalid, stored)
      else
        match List.findIdx? (fun l2 => l2.id == bad.id.getD "") stored with
        | some i =>
          (ApiResponse.ok, stored.set i (mergeLink
            (stored.getD i { id := "", title := "", url := "", createdAt := none,
                             updatedAt := none }) bad now))
        | none => (ApiResponse.ok, stored ++ [newStoredLink bad now])) =
      (ApiResponse.invalid, stored)
    rw [hcond]
    simp
  · show (if (!truthy link.id || !truthy link.title || !truthy link.url) = true then
        (ApiResponse.invalid, stored)
      else
        match List.findIdx? (fun l2 => l2.id == link.id.getD "") stored with
        | some i =>
          (ApiResponse.ok, stored.set i (mergeLink
            (stored.getD i { id := "", title := "", url := "", createdAt := none,
                             updatedAt := none }) link now))
        | none => (ApiResponse.ok, stored ++ [newStoredLink link now])) =
      (ApiResponse.ok, stored.set i (mergeLink e link now))
    rw [h1, h2, h3]
    simp only [Bool.not_true, Bool.or_self, Bool.or_false, Bool.false_or]
    rw [if_neg (by simp)]
    rw [hfind]
    show (ApiResponse.ok, stored.set i (mergeLink
        (stored.getD i { id := "", title := "", url := "", createdAt := none,
                         updatedAt := none }) link now)) =
      (ApiResponse.ok, stored.set i (mergeLink e link now))
    rw [hgetD]
  · intro j hj
    exact List.getElem?_set_ne (Ne.symm hj)

/-- C10 witness: the handler theorem at the concrete two-entry store, a valid
colliding payload and an invalid payload. -/
theorem POST_validates_and_updates_witness :
    POST storedC10 (some linkC10) "t1" =
      (ApiResponse.ok, storedC10.set 1 (mergeLink eC10 linkC10 "t1")) ∧
    POST storedC10 (some badC10) "t1" = (ApiResponse.invalid, storedC10) :=
  ⟨(POST_validates_and_updates storedC10 linkC10 badC10 "t1" 1 eC10
      (by decide) (by decide) (by decide) (by decide)).2.2.1,
   (POST_validates_and_updates storedC10 linkC10 badC10 "t1" 1 eC10
      (by decide) (by decide) (by decide) (by decide)).2.1⟩
